import Mathlib

/-!
Shallow embedding of the `wr_glyph_rasterizer` crate (webrender glyph
rasterizer) for checking its specification.

The two rasterization backends live in
`src/wr_glyph_rasterizer/src/backend/fontdue/font.rs` and
`src/wr_glyph_rasterizer/src/backend/swash/font.rs`; those files are
translated here function by function.  The shared carrier types
(`FontInstance`, `GlyphKey`, `RasterizedGlyph`, ...) are declared in
`rasterizer.rs`, which is not part of the provided sources, so they are
modelled from the specification text (section 3 and section 6 of the spec).

External library calls (fontdue, swash, ttf_parser, usvg/resvg, tiny_skia)
are modelled as environment records of deterministic functions; a Rust
panic (`unwrap` on an error value, a failed `assert!`, an out-of-bounds
index) is modelled as the `Except.error RustPanic.panicked` outcome.
Rust `f32` fields that only ever carry integer or rational values in the
translated code (`left`, `top`, `scale`) are modelled as `Int` / `Rat`.
-/

namespace WrGlyph

/-- Modelled from the spec: a Font Identity (`FontKey`) is an opaque stable
handle; we model it as a natural number. -/
abbrev FontKey := Nat

/-- Modelled from the spec: render mode is monochrome, grayscale-alpha, or
subpixel-color (`FontRenderMode` in the api crate). -/
inductive FontRenderMode
  | Mono
  | Alpha
  | Subpixel
deriving DecidableEq, Repr

/-- Modelled from the spec: the flag set of a Font Instance.  Only the two
flags the translated backend code reads are carried: `SUBPIXEL_BGR`
(subpixel channel order) and `EMBEDDED_BITMAPS` (embedded-bitmap
preference). -/
structure FontInstanceFlags where
  subpixel_bgr : Bool
  embedded_bitmaps : Bool
deriving DecidableEq, Repr

/-- Modelled from the spec: an RGBA color (`ColorU` in the api crate). -/
structure ColorU where
  r : Nat
  g : Nat
  b : Nat
  a : Nat
deriving DecidableEq, Repr

/-- Modelled from the spec: a Font Instance is a font identity plus
rendering parameters (pixel size, render mode, color, flags); instances are
value types compared by full field equality.  The pixel size
(`FontSize.to_f32_px`) is modelled as a natural number of pixels; the
transform and synthetic-strike parameters are omitted because no claim and
no translated branch depends on their value. -/
structure FontInstance where
  font_key : FontKey
  instance_key : Nat
  size : Nat
  render_mode : FontRenderMode
  flags : FontInstanceFlags
  color : ColorU
deriving DecidableEq, Repr

/-- Modelled from the spec: a Glyph Key is a glyph index plus a quantized
fractional sub-pixel offset. -/
structure GlyphKey where
  index : Nat
  subpx_offset : Nat
deriving DecidableEq, Repr

/-- Format tag of a rasterized glyph.  The spec names Mono, Alpha, Subpixel
and ColorBitmap; the fontdue backend source additionally uses the plain
`Bitmap` tag for its single-channel coverage path. -/
inductive GlyphFormat
  | Mono
  | Alpha
  | Subpixel
  | Bitmap
  | ColorBitmap
deriving DecidableEq, Repr

/-- The one recoverable rasterization error kind. -/
inductive GlyphRasterError
  | LoadFailed
deriving DecidableEq, Repr

/-- Modelled from the spec: the rasterizer output record
(`RasterizedGlyph { left, top, width, height, scale, format, bytes }`),
with the `f32` placement fields carried as `Int` and the `f32` scale as a
rational, since the translated code only ever stores integer or rational
values in them. -/
structure RasterizedGlyph where
  left : Int
  top : Int
  width : Int
  height : Int
  scale : Rat
  format : GlyphFormat
  bytes : List Nat
deriving DecidableEq, Repr

/-- `GlyphRasterResult` from `rasterizer.rs`:
`Result<RasterizedGlyph, GlyphRasterError>`. -/
abbrev GlyphRasterResult := Except GlyphRasterError RasterizedGlyph

/-- Modelled from the spec: the metrics record returned by
`get_glyph_dimensions`.  The `f32` advance is carried as a natural number
(its value is opaque to every claim). -/
structure GlyphDimensions where
  left : Int
  top : Int
  width : Int
  height : Int
  advance : Nat
deriving DecidableEq, Repr

/-- A Rust panic outcome (an `unwrap` of an error value, a failed
`assert!`, or an out-of-bounds slice index). -/
inductive RustPanic
  | panicked
deriving DecidableEq, Repr

/-! ### Association-list maps

`FastHashMap` is modelled as an association list with the operations the
backend code uses: lookup, insert (used only behind a presence check or via
`entry().or_insert_with`, i.e. insert-when-absent from the call sites, but
modelled as plain overwrite as `HashMap::insert` is), remove, and `retain`
(as `List.filter`). -/

def lookupKey {K V : Type _} [DecidableEq K] : List (K × V) → K → Option V
  | [], _ => none
  | (k, v) :: rest, q => if k = q then some v else lookupKey rest q

def removeKey {K V : Type _} [DecidableEq K] : List (K × V) → K → List (K × V)
  | [], _ => []
  | (k, v) :: rest, q => if k = q then removeKey rest q else (k, v) :: removeKey rest q

def insertKey {K V : Type _} [DecidableEq K] (m : List (K × V)) (k : K) (v : V) :
    List (K × V) :=
  (k, v) :: removeKey m k

theorem lookupKey_insertKey {K V : Type _} [DecidableEq K] (m : List (K × V)) (k : K)
    (v : V) : lookupKey (insertKey m k v) k = some v := by
  simp [insertKey, lookupKey]

theorem lookupKey_removeKey {K V : Type _} [DecidableEq K] (m : List (K × V)) (k : K) :
    lookupKey (removeKey m k) k = none := by
  induction m with
  | nil => rfl
  | cons p rest ih =>
    obtain ⟨k0, v0⟩ := p
    by_cases h : k0 = k
    · simpa [removeKey, h] using ih
    · simpa [removeKey, lookupKey, h] using ih

/-! ## Fontdue backend (`src/wr_glyph_rasterizer/src/backend/fontdue/font.rs`)

The fontdue, ttf_parser, usvg/resvg and tiny_skia libraries are external to
the repository; their calls are represented as deterministic functions
packaged in environment records. -/

namespace fontdue

/-- Metrics record produced by the fontdue library for one glyph at one
size (`fontdue::Metrics`, the fields the backend reads). -/
structure FdMetrics where
  xmin : Int
  ymin : Int
  width : Nat
  height : Nat
  advance_width : Nat
deriving DecidableEq, Repr

/-- A parsed `fontdue::Font`: the four library entry points the backend
calls, as deterministic functions of glyph index and pixel size.  The
coverage buffers are byte lists. -/
structure FontdueFont where
  lookup_glyph_index : Nat → Nat
  metrics_indexed : Nat → Nat → FdMetrics
  rasterize_indexed : Nat → Nat → FdMetrics × List Nat
  rasterize_indexed_subpixel : Nat → Nat → FdMetrics × List Nat

/-- `type RawTemplate = (Arc<Vec<u8>>, u32)`: font bytes plus collection
index. -/
abbrev RawTemplate := List Nat × Nat

/-- `struct CachedFont { hash, data, font }`. -/
structure CachedFont where
  hash : FontKey
  data : RawTemplate
  font : FontdueFont

/-- A `tiny_skia::Pixmap`: RGBA bytes, four per pixel. -/
structure Pixmap where
  width : Nat
  height : Nat
  data : List Nat
deriving DecidableEq, Repr

/-- A `ttf_parser::RasterGlyphImage` (the fields the backend reads):
placement and the embedded PNG bytes. -/
structure RasterImage where
  x : Int
  y : Int
  data : List Nat
deriving DecidableEq, Repr

/-- A parsed `usvg::Tree`, reduced to its screen size (the only field the
backend reads before handing it to the renderer). -/
structure SvgTree where
  width : Nat
  height : Nat
deriving DecidableEq, Repr

/-- A parsed `ttf_parser::Face`: the two embedded-image queries the
backend makes. -/
structure TtfFace where
  glyph_svg_image : Nat → Option (List Nat)
  glyph_raster_image : Nat → Nat → Option RasterImage

/-- Environment of external library calls made by
`glyph_using_svg_or_raster`: ttf_parser face parsing, usvg document
parsing, pixmap allocation, resvg rendering and PNG decoding. -/
structure TtfEnv where
  parse : List Nat → Nat → Option TtfFace
  svg_from_data : List Nat → Option SvgTree
  pixmap_new : Nat → Nat → Option Pixmap
  resvg_render : SvgTree → Pixmap → Option Pixmap
  decode_png : List Nat → Option Pixmap

/-- The embedded-image lookup body as the source evidently intends it
(lines 339-386 of `fontdue/font.rs`): try the SVG table, then the raster
table.  In the actual source this block sits after
`if face.is_ok() { return None; }  let face = face.unwrap();`, so it is
unreachable; it is translated separately so the reachable function below
can be compared against it. -/
def svg_or_raster_body (env : TtfEnv) (face : TtfFace) (glyph_id : Nat) (size : Nat) :
    Option (Pixmap × Int × Int) :=
  match face.glyph_svg_image glyph_id with
  | some svg_data =>
    match env.svg_from_data svg_data with
    | none => none
    | some tree =>
      match env.pixmap_new tree.width tree.height with
      | none => none
      | some pixmap =>
        match env.resvg_render tree pixmap with
        | none => none
        | some rendered => some (rendered, 0, 0)
  | none =>
    match face.glyph_raster_image glyph_id size with
    | some raster =>
      match env.decode_png raster.data with
      | some pixmap => some (pixmap, raster.x, raster.y)
      | none => none
    | none => none

/-- `fn glyph_using_svg_or_raster((bytes, index), glyph_id, size)`.

The source reads:
```
let face = ttf_parser::Face::parse(bytes.as_slice(), *index);
if face.is_ok() { return None; }
let face = face.unwrap();
...SVG / raster lookup...
```
so when parsing SUCCEEDS the function returns `None` immediately, and when
parsing fails the `unwrap` panics; the SVG / raster lookup that follows is
unreachable.  (The guard was evidently meant to be `is_err`.) -/
def glyph_using_svg_or_raster (env : TtfEnv) (tmpl : RawTemplate) (glyph_id : Nat)
    (size : Nat) : Except RustPanic (Option (Pixmap × Int × Int)) :=
  match env.parse tmpl.1 tmpl.2 with
  | some _face => Except.ok none
  | none => Except.error RustPanic.panicked

/-- Subpixel pixel conversion loop of `rasterize_glyph` (lines 288-298):
`bitmap.chunks(3)` with `(r, g, b) = (src[0], src[1], src[2])`, a swap of
`r` and `b` when `SUBPIXEL_BGR` is set, then pushes `b, g, r,
max(max(b, g), r)`.  `chunks(3)` keeps a trailing chunk of length 1 or 2,
on which `src[1]` or `src[2]` would index out of bounds and panic. -/
def fdConvertSubpixel (bgr : Bool) : List Nat → Except RustPanic (List Nat)
  | [] => Except.ok []
  | r :: g :: b :: rest =>
    let rb := if bgr then (b, r) else (r, b)
    (fdConvertSubpixel bgr rest).map
      (fun tail => rb.2 :: g :: rb.1 :: max (max rb.2 g) rb.1 :: tail)
  | _ => Except.error RustPanic.panicked

/-- Mask pixel conversion loop of `rasterize_glyph` (lines 302-308): each
coverage byte is replicated into all four channels. -/
def fdConvertAlpha (bitmap : List Nat) : List Nat :=
  bitmap.flatMap (fun alpha => [alpha, alpha, alpha, alpha])

/-- Color pixel conversion loop of the embedded-image path (lines
262-268): `pixmap.data().chunks(4)` with `(r, g, b, a)` read from the
chunk and `b, g, r, a` pushed.  As with `chunks(3)`, a trailing partial
chunk would index out of bounds and panic. -/
def fdConvertColor : List Nat → Except RustPanic (List Nat)
  | [] => Except.ok []
  | r :: g :: b :: a :: rest =>
    (fdConvertColor rest).map (fun tail => b :: g :: r :: a :: tail)
  | _ => Except.error RustPanic.panicked

/-- `struct FontContext { fonts: FastHashMap<FontHash, Arc<CachedFont>> }`,
viewed through the dereferenced `Arc`s: this view carries the cached font
contents and supports the read-only query operations
(`get_glyph_index`, `get_glyph_dimensions`, `rasterize_glyph`).  The
reference-counting operations (`add_raw_font`, `delete_font`) are modelled
separately on `FdWorld` below, where `Arc` identity is explicit. -/
structure FontContext where
  fonts : List (FontKey × CachedFont)

/-- `FontContext::get_glyph_index` (fontdue backend, lines 165-178):
`None` for an unknown key; otherwise `fontdue`'s lookup, with glyph index
0 (notdef) mapped to `None`. -/
def FontContext.get_glyph_index (ctx : FontContext) (font_key : FontKey) (ch : Nat) :
    Option Nat :=
  match lookupKey ctx.fonts font_key with
  | none => none
  | some cached =>
    let index := cached.font.lookup_glyph_index ch
    if index = 0 then none else some index

/-- `FontContext::get_glyph_dimensions` (fontdue backend, lines 180-206):
`None` for an unknown key or a degenerate metrics extent, otherwise the
metrics record. -/
def FontContext.get_glyph_dimensions (ctx : FontContext) (font : FontInstance)
    (key : GlyphKey) : Option GlyphDimensions :=
  match lookupKey ctx.fonts font.font_key with
  | none => none
  | some cached =>
    if (cached.font.metrics_indexed key.index font.size).width = 0 ∨
        (cached.font.metrics_indexed key.index font.size).height = 0 then none
    else
      some { left := (cached.font.metrics_indexed key.index font.size).xmin,
             top := (cached.font.metrics_indexed key.index font.size).ymin,
             width := ((cached.font.metrics_indexed key.index font.size).width : Int),
             height := ((cached.font.metrics_indexed key.index font.size).height : Int),
             advance := (cached.font.metrics_indexed key.index font.size).advance_width }

/-- Primary rasterization of `rasterize_glyph` (lines 241-247): subpixel
or plain fontdue rasterization by render mode. -/
def rasterizePrimary (cached : CachedFont) (font : FontInstance) (key : GlyphKey) :
    FdMetrics × List Nat :=
  if font.render_mode = FontRenderMode.Subpixel then
    cached.font.rasterize_indexed_subpixel key.index font.size
  else
    cached.font.rasterize_indexed key.index font.size

/-- Zero-extent fallback of `rasterize_glyph` (lines 256-284): the
embedded-image path.  A found image is channel-converted (BGRA), given a
`scale` of requested size over the larger image dimension and a `top` of
image height plus `y`; no image fails with `LoadFailed`. -/
def fallbackGlyph (env : TtfEnv) (cached : CachedFont) (glyph : Nat) (size : Nat) :
    Except RustPanic GlyphRasterResult :=
  match glyph_using_svg_or_raster env cached.data glyph size with
  | Except.error p => Except.error p
  | Except.ok none => Except.ok (Except.error GlyphRasterError.LoadFailed)
  | Except.ok (some (pixmap, x, y)) =>
    match fdConvertColor pixmap.data with
    | Except.error p => Except.error p
    | Except.ok bytes =>
      Except.ok (Except.ok
        { left := x,
          top := (pixmap.height : Int) + y,
          width := (pixmap.width : Int),
          height := (pixmap.height : Int),
          scale := (size : Rat) / ((max pixmap.width pixmap.height : Nat) : Rat),
          format := GlyphFormat.ColorBitmap,
          bytes := bytes })

/-- Non-zero-extent pixel conversion and return of `rasterize_glyph`
(lines 286-322): subpixel conversion (which can panic on a malformed
buffer) tagged `Subpixel`, or per-byte replication tagged `Bitmap`, with
placement from the fontdue metrics. -/
def primaryGlyph (font : FontInstance) (metrics : FdMetrics) (bitmap : List Nat) :
    Except RustPanic GlyphRasterResult :=
  match
    (if font.render_mode = FontRenderMode.Subpixel then
      (fdConvertSubpixel font.flags.subpixel_bgr bitmap).map
        (fun bytes => (bytes, GlyphFormat.Subpixel))
    else
      Except.ok (fdConvertAlpha bitmap, GlyphFormat.Bitmap)) with
  | Except.error p => Except.error p
  | Except.ok (bytes, format) =>
    Except.ok (Except.ok
      { left := metrics.xmin,
        top := (metrics.height : Int) + metrics.ymin,
        width := (metrics.width : Int),
        height := (metrics.height : Int),
        scale := 1,
        format := format,
        bytes := bytes })

/-- `FontContext::rasterize_glyph` (fontdue backend, lines 227-323).
Missing key fails with `LoadFailed`; otherwise the glyph is rasterized by
fontdue; a zero-extent result goes to the embedded-image fallback; a
non-zero extent goes through the pixel conversion above. -/
def FontContext.rasterize_glyph (env : TtfEnv) (ctx : FontContext)
    (font : FontInstance) (key : GlyphKey) :
    Except RustPanic GlyphRasterResult :=
  match lookupKey ctx.fonts font.font_key with
  | none => Except.ok (Except.error GlyphRasterError.LoadFailed)
  | some cached =>
    if (rasterizePrimary cached font key).1.width = 0 ∨
        (rasterizePrimary cached font key).1.height = 0 then
      fallbackGlyph env cached key.index font.size
    else
      primaryGlyph font (rasterizePrimary cached font key).1
        (rasterizePrimary cached font key).2

/-- Well-formedness of the external fontdue library output, as documented
by fontdue: `rasterize_indexed` returns one coverage byte per pixel and
`rasterize_indexed_subpixel` three coverage bytes per pixel. -/
def FontdueFont.wf (f : FontdueFont) : Prop :=
  (∀ g s, (f.rasterize_indexed g s).2.length =
    (f.rasterize_indexed g s).1.width * (f.rasterize_indexed g s).1.height) ∧
  (∀ g s, (f.rasterize_indexed_subpixel g s).2.length =
    3 * ((f.rasterize_indexed_subpixel g s).1.width *
      (f.rasterize_indexed_subpixel g s).1.height))

/-- A context is well formed when every cached font it holds is. -/
def FontContext.wf (ctx : FontContext) : Prop :=
  ∀ k c, lookupKey ctx.fonts k = some c → c.font.wf

/-! ### Shared global store and reference counting

`add_raw_font` and `delete_font` manipulate `Arc<CachedFont>` reference
counts through the process-wide `FONT_CACHE` (`static
OnceLock<Arc<Mutex<FontCache>>>`).  They are modelled on a world holding
the store, every context map, the `try_lock` availability, and — since
`Arc` identity is what `Arc::strong_count` observes — each `CachedFont`
allocation is named by a `FontId`.  `cachedHash` records the immutable
`hash` field of each allocation (read by `FontCache::delete_font`);
`parseOk` is the `fontdue::Font::from_bytes` outcome for given bytes. -/

abbrev FontId := Nat

structure FdWorld where
  lockHeld : Bool
  store : List (FontKey × FontId)
  cachedHash : List (FontId × FontKey)
  nextId : Nat
  contexts : List (List (FontKey × FontId))

structure FdEnv where
  parseOk : List Nat → Nat → Bool

/-- Number of `Arc` references to allocation `fid` held by one map. -/
def countRefs (m : List (Nat × FontId)) (fid : FontId) : Nat :=
  (m.filter (fun p => p.2 == fid)).length

/-- `Arc::strong_count` minus the local `cached` binding: references held
by the store plus references held by every context map of the world. -/
def strongOther (w : FdWorld) (fid : FontId) : Nat :=
  countRefs w.store fid + (w.contexts.map (fun c => countRefs c fid)).sum

/-- `FontCache::cache_mut` + `FontCache::delete_font` (lines 52-63 and
106-110): under `try_lock` failure the closure is skipped (the removal is
silently dropped); otherwise the store entry at `cached.hash` is removed. -/
def cacheDeleteFont (w : FdWorld) (hash : FontKey) : FdWorld :=
  if w.lockHeld then w
  else { w with store := removeKey w.store hash }

/-- `FontCache::with_font` (lines 65-104) for a raw template: under lock
contention the whole closure is skipped and `None` is returned; an
existing store entry is returned as is; otherwise the bytes are parsed —
parse failure PANICS (`panic!` in the source) — and a fresh allocation is
inserted into the store. -/
def cacheWithFont (env : FdEnv) (w : FdWorld) (k : FontKey) (bytes : List Nat)
    (index : Nat) : Except RustPanic (Option FontId × FdWorld) :=
  if w.lockHeld then Except.ok (none, w)
  else
    match lookupKey w.store k with
    | some fid => Except.ok (some fid, w)
    | none =>
      if env.parseOk bytes index then
        let fid := w.nextId
        Except.ok (some fid,
          { w with store := insertKey w.store k fid,
                   cachedHash := insertKey w.cachedHash fid k,
                   nextId := w.nextId + 1 })
      else Except.error RustPanic.panicked

/-- `FontContext::add_raw_font` (lines 134-140) for the context at
position `i`: resolve through `FontCache::with_font`; when that yields a
cached font, record it locally via `entry(..).or_insert_with` (keep an
existing local entry); when the store was unavailable, do nothing. -/
def addRawFont (env : FdEnv) (w : FdWorld) (i : Nat) (k : FontKey) (bytes : List Nat)
    (index : Nat) : Except RustPanic FdWorld :=
  match cacheWithFont env w k bytes index with
  | Except.error p => Except.error p
  | Except.ok (none, w1) => Except.ok w1
  | Except.ok (some fid, w1) =>
    let ctx := w1.contexts.getD i []
    let ctx1 :=
      match lookupKey ctx k with
      | some _ => ctx
      | none => insertKey ctx k fid
    Except.ok { w1 with contexts := w1.contexts.set i ctx1 }

/-- `FontContext::delete_font` (lines 153-161) for the context at position
`i`: remove the local entry; with the removed `Arc` still live as the
local binding `cached`, check `Arc::strong_count(&cached) <= 2` (store +
this binding) and, when it holds, remove the store entry at
`cached.hash`. -/
def deleteFont (w : FdWorld) (i : Nat) (k : FontKey) : FdWorld :=
  let ctx := w.contexts.getD i []
  match lookupKey ctx k with
  | none => w
  | some fid =>
    let w1 := { w with contexts := w.contexts.set i (removeKey ctx k) }
    if strongOther w1 fid + 1 ≤ 2 then
      match lookupKey w1.cachedHash fid with
      | some hash => cacheDeleteFont w1 hash
      | none => w1
    else w1

end fontdue

/-! ## Swash backend (`src/wr_glyph_rasterizer/src/backend/swash/font.rs`)

The swash library (`ScaleContext`, `Render`, `FontRef`, `Charmap`) is
external; its rendering pipeline `render_glyph` (lines 241-329 of the
backend, itself a wrapper over swash calls) is modelled as a deterministic
function attached to each parsed font, and the charmap and metrics queries
likewise. -/

namespace swash

/-- `swash::scale::image::Content`. -/
inductive Content
  | Mask
  | SubpixelMask
  | Color
deriving DecidableEq, Repr

/-- `swash::scale::image::Image` (`GlyphImage` in the backend): placement
plus pixel data plus content tag. -/
structure GlyphImage where
  left : Int
  top : Int
  width : Nat
  height : Nat
  data : List Nat
  content : Content
deriving DecidableEq, Repr

/-- A parsed swash `Font`: the charmap lookup (`charmap().map(ch)`, 0 for
an unmapped character), the scaled advance-width metric, and the
`render_glyph` pipeline of the backend as a deterministic function of the
instance and glyph key. -/
structure Font where
  charmap_map : Nat → Nat
  advance_width : Nat → Nat → Nat
  render_glyph : FontInstance → GlyphKey → Option GlyphImage

/-- `struct FontContext { fonts, font_cache, scale_context, cache }`: the
key-to-font map and the glyph-image cache keyed by the structural value of
`(FontInstance, GlyphKey)`.  The `font_cache` field (native-handle
resolver) and `scale_context` (scratch state inside swash) do not appear
in any translated operation. -/
structure FontContext where
  fonts : List (FontKey × Font)
  cache : List ((FontInstance × GlyphKey) × GlyphImage)

/-- `FontContext::add_raw_font` (swash backend, lines 52-59): keep an
existing entry; otherwise parse (`Font::from_data`, modelled as an
optional parsed font supplied with the bytes) and insert on success. -/
def FontContext.add_raw_font (ctx : FontContext) (font_key : FontKey)
    (parsed : Option Font) : FontContext :=
  if (lookupKey ctx.fonts font_key).isSome then ctx
  else
    match parsed with
    | some font => { ctx with fonts := insertKey ctx.fonts font_key font }
    | none => ctx

/-- `FontContext::delete_font` (swash backend, lines 70-74): remove the
font entry and retain only cache entries whose instance has a different
`font_key`. -/
def FontContext.delete_font (ctx : FontContext) (font_key : FontKey) : FontContext :=
  match lookupKey ctx.fonts font_key with
  | none => ctx
  | some _ =>
    { fonts := removeKey ctx.fonts font_key,
      cache := ctx.cache.filter (fun p => ¬ (p.1.1.font_key == font_key)) }

/-- `FontContext::delete_font_instance` (swash backend, lines 76-80):
retain only cache entries whose instance has a different `instance_key`. -/
def FontContext.delete_font_instance (ctx : FontContext) (inst : FontInstance) :
    FontContext :=
  { ctx with
    cache := ctx.cache.filter (fun p => ¬ (p.1.1.instance_key == inst.instance_key)) }

/-- `FontContext::get_glyph_index` (swash backend, lines 82-90): `None`
for an unknown key; otherwise `Some` of the raw charmap value — including
the notdef sentinel 0, which is NOT filtered out here. -/
def FontContext.get_glyph_index (ctx : FontContext) (font_key : FontKey) (ch : Nat) :
    Option Nat :=
  match lookupKey ctx.fonts font_key with
  | none => none
  | some font => some (font.charmap_map ch)

/-- `FontContext::get_or_create_cache` (lines 150-169): a cache hit
returns the cached image; on a miss the font is looked up with
`.unwrap()` — a PANIC when the key is unknown — and the rendered image,
when any, is inserted into the cache. -/
def FontContext.get_or_create_cache (ctx : FontContext) (inst : FontInstance)
    (glyph_key : GlyphKey) :
    Except RustPanic (Option GlyphImage × FontContext) :=
  match lookupKey ctx.cache (inst, glyph_key) with
  | some entry => Except.ok (some entry, ctx)
  | none =>
    match lookupKey ctx.fonts inst.font_key with
    | none => Except.error RustPanic.panicked
    | some font =>
      match font.render_glyph inst glyph_key with
      | some glyph =>
        Except.ok (some glyph,
          { ctx with cache := insertKey ctx.cache (inst, glyph_key) glyph })
      | none => Except.ok (none, ctx)

/-- `Modelled from the spec:` `FontInstance::get_alpha_glyph_format` is
declared in `rasterizer.rs` (not among the provided sources); per the
spec, the format tag matches the path that produced the pixels, so the
mask path of a monochrome instance is tagged `Mono` and otherwise
`Alpha`. -/
def getAlphaGlyphFormat (inst : FontInstance) : GlyphFormat :=
  match inst.render_mode with
  | FontRenderMode.Mono => GlyphFormat.Mono
  | _ => GlyphFormat.Alpha

/-- `Modelled from the spec:` `FontInstance::get_subpixel_glyph_format` is
declared in `rasterizer.rs` (not among the provided sources); it tags the
subpixel path. -/
def getSubpixelGlyphFormat (_instance : FontInstance) : GlyphFormat :=
  GlyphFormat.Subpixel

/-- Color / subpixel pixel conversion loop of `rasterize_glyph` (lines
205-215): `pixels.chunks_exact(4)` with `(r, g, b, a)` read from the
chunk, a swap of `r` and `b` when `SUBPIXEL_BGR` is set, and `[b, g, r,
a]` emitted.  `chunks_exact` silently drops a trailing partial chunk. -/
def swConvertColor (bgr : Bool) : List Nat → List Nat
  | r :: g :: b :: a :: rest =>
    let rb := if bgr then (b, r) else (r, b)
    rb.2 :: g :: rb.1 :: a :: swConvertColor bgr rest
  | _ => []

/-- Mask pixel conversion loop of `rasterize_glyph` (lines 217-220): each
byte replicated into all four channels. -/
def swConvertMask (pixels : List Nat) : List Nat :=
  pixels.flatMap (fun v => [v, v, v, v])

/-- The stateless tail of `FontContext::rasterize_glyph` (lines 182-237),
applied to the image obtained from the cache: a zero extent fails with
`LoadFailed`; color / subpixel content must satisfy
`assert!(width * height * 4 == pixels.len())` (a failed assert PANICS) and
is channel-converted (the source handles `Color` and `SubpixelMask` in one
arm; they are split here only because the format tag distinguishes them
below); mask content is replicated; the format tag follows the content. -/
def rasterizeImage (inst : FontInstance) (img : GlyphImage) :
    Except RustPanic GlyphRasterResult :=
  if img.width = 0 ∨ img.height = 0 then
    Except.ok (Except.error GlyphRasterError.LoadFailed)
  else
    match img.content with
    | Content.Color =>
      if img.width * img.height * 4 = img.data.length then
        Except.ok (Except.ok
          { left := img.left, top := img.top,
            width := (img.width : Int), height := (img.height : Int),
            scale := 1, format := GlyphFormat.ColorBitmap,
            bytes := swConvertColor inst.flags.subpixel_bgr img.data })
      else Except.error RustPanic.panicked
    | Content.SubpixelMask =>
      if img.width * img.height * 4 = img.data.length then
        Except.ok (Except.ok
          { left := img.left, top := img.top,
            width := (img.width : Int), height := (img.height : Int),
            scale := 1, format := getSubpixelGlyphFormat inst,
            bytes := swConvertColor inst.flags.subpixel_bgr img.data })
      else Except.error RustPanic.panicked
    | Content.Mask =>
      Except.ok (Except.ok
        { left := img.left, top := img.top,
          width := (img.width : Int), height := (img.height : Int),
          scale := 1, format := getAlphaGlyphFormat inst,
          bytes := swConvertMask img.data })

/-- `FontContext::rasterize_glyph` (swash backend, lines 170-238): get or
render the cached image — a missing image fails with `LoadFailed` — and
post-process it with `rasterizeImage` above; the context is only mutated
through `get_or_create_cache`. -/
def FontContext.rasterize_glyph (ctx : FontContext) (inst : FontInstance)
    (glyph_key : GlyphKey) :
    Except RustPanic (GlyphRasterResult × FontContext) :=
  match ctx.get_or_create_cache inst glyph_key with
  | Except.error p => Except.error p
  | Except.ok (none, ctx1) =>
    Except.ok (Except.error GlyphRasterError.LoadFailed, ctx1)
  | Except.ok (some img, ctx1) =>
    match rasterizeImage inst img with
    | Except.error p => Except.error p
    | Except.ok r => Except.ok (r, ctx1)

/-- `FontContext::get_glyph_dimensions` (swash backend, lines 92-128): get
or render the cached image (panicking inner `unwrap` included); with an
image in hand, an unknown font key gives `None`, otherwise the placement
is returned — with NO zero-extent check — together with the scaled
advance.  (`instance.get_transformed_size()` is declared in
`rasterizer.rs`, not among the provided sources; per the spec the size is
the instance pixel size with the transform applied, and with no transform
modelled it is the pixel size itself.) -/
def FontContext.get_glyph_dimensions (ctx : FontContext) (inst : FontInstance)
    (key : GlyphKey) :
    Except RustPanic (Option GlyphDimensions × FontContext) :=
  match ctx.get_or_create_cache inst key with
  | Except.error p => Except.error p
  | Except.ok (none, ctx1) => Except.ok (none, ctx1)
  | Except.ok (some img, ctx1) =>
    match lookupKey ctx1.fonts inst.font_key with
    | none => Except.ok (none, ctx1)
    | some font =>
      Except.ok (some
        { left := img.left, top := img.top,
          width := (img.width : Int), height := (img.height : Int),
          advance := font.advance_width inst.size key.index }, ctx1)

/-- Well-formedness of a swash glyph image: mask content carries one byte
per pixel (the swash library contract for `Content::Mask` data). -/
def GlyphImage.wf (img : GlyphImage) : Prop :=
  img.content = Content.Mask → img.data.length = img.width * img.height

/-- A context is well formed when every cached image and every image its
fonts can render is well formed. -/
def FontContext.wf (ctx : FontContext) : Prop :=
  (∀ k img, lookupKey ctx.cache k = some img → img.wf) ∧
  (∀ k f, lookupKey ctx.fonts k = some f →
    ∀ inst gk img, f.render_glyph inst gk = some img → img.wf)

end swash

/-! ## Spec-side pixel-buffer predicates

Helpers used to state channel-level claims about the 4-bytes-per-pixel
output buffers. -/

/-- Swap the first and third channel of every 4-byte pixel. -/
def swap13 : List Nat → List Nat
  | c0 :: c1 :: c2 :: c3 :: rest => c2 :: c1 :: c0 :: c3 :: swap13 rest
  | l => l

/-- Every 4-byte pixel has its fourth (alpha) channel equal to the maximum
of its first three channels. -/
def alphaIsMax : List Nat → Bool
  | [] => true
  | c0 :: c1 :: c2 :: c3 :: rest => (c3 == max (max c0 c1) c2) && alphaIsMax rest
  | _ => false

/-- The fourth channel of every complete 4-byte pixel, in order. -/
def alphaChannels : List Nat → List Nat
  | _ :: _ :: _ :: c3 :: rest => c3 :: alphaChannels rest
  | _ => []

/-! ## Auxiliary lemmas -/

namespace fontdue

/-- The embedded-image lookup can never succeed: whenever it returns
without panicking it returns `none` (the inverted `is_ok` guard). -/
theorem glyph_using_svg_or_raster_ok (env : TtfEnv) (tmpl : RawTemplate)
    (gid size : Nat) (r : Option (Pixmap × Int × Int))
    (h : glyph_using_svg_or_raster env tmpl gid size = Except.ok r) : r = none := by
  unfold glyph_using_svg_or_raster at h
  cases hp : env.parse tmpl.1 tmpl.2 <;> rw [hp] at h <;> simp_all

theorem fdConvertAlpha_length (l : List Nat) :
    (fdConvertAlpha l).length = 4 * l.length := by
  induction l with
  | nil => rfl
  | cons x rest ih => simp [fdConvertAlpha] at ih ⊢; omega

theorem fdConvertSubpixel_length (bgr : Bool) :
    ∀ (l out : List Nat), fdConvertSubpixel bgr l = Except.ok out →
      3 * out.length = 4 * l.length
  | [], out => by
    intro h
    simp [fdConvertSubpixel] at h
    simp [← h]
  | [r], out => by intro h; simp [fdConvertSubpixel] at h
  | [r, g], out => by intro h; simp [fdConvertSubpixel] at h
  | r :: g :: b :: rest, out => by
    intro h
    simp only [fdConvertSubpixel] at h
    cases hrec : fdConvertSubpixel bgr rest with
    | error p => rw [hrec] at h; simp [Except.map] at h
    | ok tail =>
      rw [hrec] at h
      simp [Except.map] at h
      have ih := fdConvertSubpixel_length bgr rest tail hrec
      simp [← h]
      omega

theorem fdConvertColor_length :
    ∀ (l out : List Nat), fdConvertColor l = Except.ok out → out.length = l.length
  | [], out => by
    intro h
    simp [fdConvertColor] at h
    simp [← h]
  | [r], out => by intro h; simp [fdConvertColor] at h
  | [r, g], out => by intro h; simp [fdConvertColor] at h
  | [r, g, b], out => by intro h; simp [fdConvertColor] at h
  | r :: g :: b :: a :: rest, out => by
    intro h
    simp only [fdConvertColor] at h
    cases hrec : fdConvertColor rest with
    | error p => rw [hrec] at h; simp [Except.map] at h
    | ok tail =>
      rw [hrec] at h
      simp [Except.map] at h
      have ih := fdConvertColor_length rest tail hrec
      simp [← h, ih]

/-- The zero-extent fallback path can only fail (when it does not panic):
a direct consequence of the dead embedded-image lookup. -/
theorem fallbackGlyph_ok (env : TtfEnv) (cached : CachedFont) (glyph size : Nat)
    (r : GlyphRasterResult) (h : fallbackGlyph env cached glyph size = Except.ok r) :
    r = Except.error GlyphRasterError.LoadFailed := by
  unfold fallbackGlyph at h
  cases hg : glyph_using_svg_or_raster env cached.data glyph size with
  | error p => rw [hg] at h; simp at h
  | ok o =>
    have := glyph_using_svg_or_raster_ok env cached.data glyph size o hg
    subst this
    rw [hg] at h
    simp at h
    exact h.symm

/-- Characterization of a successful non-zero-extent conversion: the
glyph carries the metrics extent and placement, and its bytes come from
the subpixel conversion (subpixel mode) or the per-byte replication. -/
theorem primaryGlyph_ok (font : FontInstance) (metrics : FdMetrics)
    (bitmap : List Nat) (g : RasterizedGlyph)
    (h : primaryGlyph font metrics bitmap = Except.ok (Except.ok g)) :
    g.left = metrics.xmin ∧ g.top = (metrics.height : Int) + metrics.ymin ∧
    g.width = (metrics.width : Int) ∧ g.height = (metrics.height : Int) ∧
    g.scale = 1 ∧
    ((font.render_mode = FontRenderMode.Subpixel ∧
      fdConvertSubpixel font.flags.subpixel_bgr bitmap = Except.ok g.bytes ∧
      g.format = GlyphFormat.Subpixel) ∨
     (font.render_mode ≠ FontRenderMode.Subpixel ∧
      g.bytes = fdConvertAlpha bitmap ∧ g.format = GlyphFormat.Bitmap)) := by
  unfold primaryGlyph at h
  by_cases hm : font.render_mode = FontRenderMode.Subpixel
  · rw [if_pos hm] at h
    cases hc : fdConvertSubpixel font.flags.subpixel_bgr bitmap with
    | error p => rw [hc] at h; simp [Except.map] at h
    | ok bytes =>
      rw [hc] at h
      simp [Except.map] at h
      subst h
      exact ⟨rfl, rfl, rfl, rfl, rfl, Or.inl ⟨hm, rfl, rfl⟩⟩
  · rw [if_neg hm] at h
    simp at h
    subst h
    exact ⟨rfl, rfl, rfl, rfl, rfl, Or.inr ⟨hm, rfl, rfl⟩⟩

end fontdue

namespace swash

theorem swConvertMask_length (l : List Nat) :
    (swConvertMask l).length = 4 * l.length := by
  induction l with
  | nil => rfl
  | cons x rest ih => simp [swConvertMask] at ih ⊢; omega

theorem swConvertColor_length (bgr : Bool) :
    ∀ l : List Nat, (swConvertColor bgr l).length = 4 * (l.length / 4)
  | [] => by simp [swConvertColor]
  | [r] => by simp [swConvertColor]
  | [r, g] => by simp [swConvertColor]
  | [r, g, b] => by simp [swConvertColor]
  | r :: g :: b :: a :: rest => by
    have ih := swConvertColor_length bgr rest
    simp [swConvertColor, ih]
    omega

/-- An image handed out by `get_or_create_cache` on a well-formed context
is well formed (it comes from the cache or from the font renderer). -/
theorem get_or_create_cache_wf (ctx : FontContext) (inst : FontInstance)
    (gk : GlyphKey) (img : GlyphImage) (ctx1 : FontContext) (hwf : ctx.wf)
    (h : ctx.get_or_create_cache inst gk = Except.ok (some img, ctx1)) :
    img.wf := by
  unfold FontContext.get_or_create_cache at h
  split at h
  next entry hc =>
    simp at h
    exact h.1 ▸ hwf.1 _ _ hc
  next hc =>
    split at h
    next hf => simp at h
    next font hf =>
      split at h
      next glyph hr =>
        simp at h
        exact h.1 ▸ hwf.2 _ _ hf inst gk glyph hr
      next hr => simp at h

/-- After a successful `get_or_create_cache`, the produced context holds
the image in its cache under the same key, and the font map is
unchanged. -/
theorem get_or_create_cache_some (ctx : FontContext) (inst : FontInstance)
    (gk : GlyphKey) (img : GlyphImage) (ctx1 : FontContext)
    (h : ctx.get_or_create_cache inst gk = Except.ok (some img, ctx1)) :
    lookupKey ctx1.cache (inst, gk) = some img ∧ ctx1.fonts = ctx.fonts := by
  unfold FontContext.get_or_create_cache at h
  split at h
  next entry hc =>
    simp at h
    obtain ⟨h1, h2⟩ := h
    subst h2
    exact ⟨h1 ▸ hc, rfl⟩
  next hc =>
    split at h
    next hf => simp at h
    next font hf =>
      split at h
      next glyph hr =>
        simp at h
        obtain ⟨h1, h2⟩ := h
        subst h1
        subst h2
        exact ⟨lookupKey_insertKey _ _ _, rfl⟩
      next hr => simp at h

/-- `get_or_create_cache` with a `none` image leaves the context
unchanged. -/
theorem get_or_create_cache_none (ctx : FontContext) (inst : FontInstance)
    (gk : GlyphKey) (ctx1 : FontContext)
    (h : ctx.get_or_create_cache inst gk = Except.ok (none, ctx1)) :
    ctx1 = ctx := by
  unfold FontContext.get_or_create_cache at h
  split at h
  next entry hc => simp at h
  next hc =>
    split at h
    next hf => simp at h
    next font hf =>
      split at h
      next glyph hr => simp at h
      next hr => simp at h; exact h.symm

/-- Success dimensions of the stateless rasterization tail: for a
well-formed image, a successful conversion has a positive extent and a
4-bytes-per-pixel buffer. -/
theorem rasterizeImage_ok (inst : FontInstance) (img : GlyphImage)
    (g : RasterizedGlyph) (hwf : img.wf)
    (h : rasterizeImage inst img = Except.ok (Except.ok g)) :
    0 < g.width ∧ 0 < g.height ∧ (g.bytes.length : Int) = 4 * g.width * g.height := by
  unfold rasterizeImage at h
  split at h
  · simp at h
  next hz =>
    push_neg at hz
    obtain ⟨hw, hh⟩ := hz
    have hwpos : 0 < img.width := Nat.pos_of_ne_zero hw
    have hhpos : 0 < img.height := Nat.pos_of_ne_zero hh
    split at h
    · -- Content.Color
      split at h
      next ha =>
        simp at h
        subst h
        dsimp only
        refine ⟨by exact_mod_cast hwpos, by exact_mod_cast hhpos, ?_⟩
        have hlen : (swConvertColor inst.flags.subpixel_bgr img.data).length =
            4 * (img.data.length / 4) := swConvertColor_length _ _
        have hd : img.data.length = 4 * (img.width * img.height) := by omega
        rw [hlen, hd]
        have : 4 * (img.width * img.height) / 4 = img.width * img.height := by omega
        rw [this]
        push_cast
        ring
      next ha => simp at h
    · -- Content.SubpixelMask
      split at h
      next ha =>
        simp at h
        subst h
        dsimp only
        refine ⟨by exact_mod_cast hwpos, by exact_mod_cast hhpos, ?_⟩
        have hlen : (swConvertColor inst.flags.subpixel_bgr img.data).length =
            4 * (img.data.length / 4) := swConvertColor_length _ _
        have hd : img.data.length = 4 * (img.width * img.height) := by omega
        rw [hlen, hd]
        have : 4 * (img.width * img.height) / 4 = img.width * img.height := by omega
        rw [this]
        push_cast
        ring
      next ha => simp at h
    · -- Content.Mask
      next hmask =>
        simp at h
        subst h
        dsimp only
        refine ⟨by exact_mod_cast hwpos, by exact_mod_cast hhpos, ?_⟩
        have hlen := swConvertMask_length img.data
        have hd : img.data.length = img.width * img.height := hwf hmask
        rw [hlen, hd]
        push_cast
        ring

/-- A successful `get_or_create_cache` is repeatable: running it again
from the context it produced yields the same outcome and the same
context. -/
theorem get_or_create_cache_idem (ctx : FontContext) (inst : FontInstance)
    (gk : GlyphKey) (o : Option GlyphImage) (ctx1 : FontContext)
    (h : ctx.get_or_create_cache inst gk = Except.ok (o, ctx1)) :
    ctx1.get_or_create_cache inst gk = Except.ok (o, ctx1) := by
  cases o with
  | some img =>
    obtain ⟨hc, _⟩ := get_or_create_cache_some ctx inst gk img ctx1 h
    unfold FontContext.get_or_create_cache
    rw [hc]
  | none =>
    have := get_or_create_cache_none ctx inst gk ctx1 h
    subst this
    exact h

end swash

/-! ## Success-dimension helper lemmas -/

namespace fontdue

/-- Fontdue-backend success dimensions: with a well-formed context, a
successful `rasterize_glyph` has positive extent and a 4-bytes-per-pixel
buffer. -/
theorem rasterize_ok_dims_fontdue (env : TtfEnv) (ctx : FontContext)
    (font : FontInstance) (key : GlyphKey) (g : RasterizedGlyph) (hwf : ctx.wf)
    (h : FontContext.rasterize_glyph env ctx font key = Except.ok (Except.ok g)) :
    0 < g.width ∧ 0 < g.height ∧ (g.bytes.length : Int) = 4 * g.width * g.height := by
  unfold FontContext.rasterize_glyph at h
  split at h
  · simp at h
  next cached hl =>
    split at h
    next hz =>
      have hcontra := fallbackGlyph_ok env cached key.index font.size (Except.ok g) h
      simp at hcontra
    next hz =>
      obtain ⟨hleft, htop, hw, hh, hs, hcase⟩ := primaryGlyph_ok font _ _ g h
      push_neg at hz
      obtain ⟨hwne, hhne⟩ := hz
      have hfwf : cached.font.wf := hwf _ _ hl
      refine ⟨?_, ?_, ?_⟩
      · rw [hw]; exact_mod_cast Nat.pos_of_ne_zero hwne
      · rw [hh]; exact_mod_cast Nat.pos_of_ne_zero hhne
      · rcases hcase with ⟨hm, hconv, _⟩ | ⟨hm, hbytes, _⟩
        · have hlen := fdConvertSubpixel_length font.flags.subpixel_bgr _ _ hconv
          have hbit : (rasterizePrimary cached font key).2.length =
              3 * ((rasterizePrimary cached font key).1.width *
                (rasterizePrimary cached font key).1.height) := by
            unfold rasterizePrimary
            rw [if_pos hm]
            exact hfwf.2 key.index font.size
          rw [hw, hh]
          obtain ⟨K, hK⟩ : ∃ K, (rasterizePrimary cached font key).1.width *
              (rasterizePrimary cached font key).1.height = K := ⟨_, rfl⟩
          rw [hK] at hbit
          have hgb : g.bytes.length = 4 * K := by omega
          rw [hgb, ← hK]
          push_cast
          ring
        · have hlen : g.bytes.length = 4 * (rasterizePrimary cached font key).2.length := by
            rw [hbytes]; exact fdConvertAlpha_length _
          have hbit : (rasterizePrimary cached font key).2.length =
              (rasterizePrimary cached font key).1.width *
                (rasterizePrimary cached font key).1.height := by
            unfold rasterizePrimary
            rw [if_neg hm]
            exact hfwf.1 key.index font.size
          rw [hw, hh, hlen, hbit]
          push_cast
          ring

end fontdue

namespace swash

/-- Swash-backend success dimensions: with a well-formed context, a
successful `rasterize_glyph` has positive extent and a 4-bytes-per-pixel
buffer. -/
theorem rasterize_ok_dims_swash (ctx : FontContext) (inst : FontInstance)
    (gk : GlyphKey) (g : RasterizedGlyph) (ctx1 : FontContext) (hwf : ctx.wf)
    (h : ctx.rasterize_glyph inst gk = Except.ok (Except.ok g, ctx1)) :
    0 < g.width ∧ 0 < g.height ∧ (g.bytes.length : Int) = 4 * g.width * g.height := by
  unfold FontContext.rasterize_glyph at h
  split at h
  · simp at h
  · simp at h
  next img c1 hg =>
    split at h
    · simp at h
    next r hri =>
      simp at h
      obtain ⟨hr, hc⟩ := h
      subst hr
      subst hc
      exact rasterizeImage_ok inst img g
        (get_or_create_cache_wf ctx inst gk img c1 hwf hg) hri

end swash

/-! ## Claim theorems -/

/-- C1: for every call to `rasterize_glyph` (either backend) that returns
`Ok`, the returned `RasterizedGlyph` satisfies `width > 0`, `height > 0`
and `bytes.len() == 4 * width * height`; a zero-extent glyph is never
returned as a zero-sized success.  The well-formedness hypotheses record
the documented byte-per-pixel contracts of the external fontdue and swash
rasterizers. -/
theorem C1_successful_raster_dims :
    (∀ (env : fontdue.TtfEnv) (ctx : fontdue.FontContext) (font : FontInstance)
      (key : GlyphKey) (g : RasterizedGlyph), ctx.wf →
      fontdue.FontContext.rasterize_glyph env ctx font key =
        Except.ok (Except.ok g) →
      0 < g.width ∧ 0 < g.height ∧ (g.bytes.length : Int) = 4 * g.width * g.height) ∧
    (∀ (ctx : swash.FontContext) (inst : FontInstance) (gk : GlyphKey)
      (g : RasterizedGlyph) (ctx1 : swash.FontContext), ctx.wf →
      ctx.rasterize_glyph inst gk = Except.ok (Except.ok g, ctx1) →
      0 < g.width ∧ 0 < g.height ∧ (g.bytes.length : Int) = 4 * g.width * g.height) :=
  ⟨fun env ctx font key g hwf h =>
      fontdue.rasterize_ok_dims_fontdue env ctx font key g hwf h,
   fun ctx inst gk g ctx1 hwf h =>
      swash.rasterize_ok_dims_swash ctx inst gk g ctx1 hwf h⟩

/-- Concrete fontdue font used by witnesses: one glyph, 1 x 1 extent, one
coverage byte per pixel (three in subpixel mode). -/
def c1font : fontdue.FontdueFont :=
  { lookup_glyph_index := fun _ => 1,
    metrics_indexed := fun _ _ => ⟨0, 0, 1, 1, 6⟩,
    rasterize_indexed := fun _ _ => (⟨0, 0, 1, 1, 6⟩, [5]),
    rasterize_indexed_subpixel := fun _ _ => (⟨0, 0, 1, 1, 6⟩, [5, 6, 7]) }

def c1cached : fontdue.CachedFont := ⟨1, ([], 0), c1font⟩

def c1ctx : fontdue.FontContext := ⟨[(1, c1cached)]⟩

/-- A ttf environment on which every external call fails to find
anything. -/
def c1env : fontdue.TtfEnv :=
  ⟨fun _ _ => none, fun _ => none, fun _ _ => none, fun _ _ => none, fun _ => none⟩

def c1inst : FontInstance :=
  ⟨1, 0, 16, FontRenderMode.Alpha, ⟨false, false⟩, ⟨255, 255, 255, 255⟩⟩

def c1key : GlyphKey := ⟨1, 0⟩

def c1out : RasterizedGlyph := ⟨0, 1, 1, 1, 1, GlyphFormat.Bitmap, [5, 5, 5, 5]⟩

theorem c1ctx_wf : c1ctx.wf := by
  intro k c h
  by_cases hk : (1 : Nat) = k
  · simp [c1ctx, lookupKey, hk] at h
    subst h
    exact ⟨fun _ _ => rfl, fun _ _ => rfl⟩
  · simp [c1ctx, lookupKey, hk] at h

/-- Concrete swash font used by witnesses: renders a 1 x 1 mask image. -/
def c1swimg : swash.GlyphImage := ⟨0, 0, 1, 1, [9], swash.Content.Mask⟩

def c1swfont : swash.Font := ⟨fun _ => 1, fun _ _ => 0, fun _ _ => some c1swimg⟩

def c1swctx : swash.FontContext := ⟨[(1, c1swfont)], []⟩

def c1swctx1 : swash.FontContext :=
  ⟨[(1, c1swfont)], insertKey [] (c1inst, c1key) c1swimg⟩

def c1swout : RasterizedGlyph := ⟨0, 0, 1, 1, 1, GlyphFormat.Alpha, [9, 9, 9, 9]⟩

theorem c1swctx_wf : c1swctx.wf := by
  constructor
  · intro k img h
    simp [c1swctx, lookupKey] at h
  · intro k f h inst gk img hr
    by_cases hk : (1 : Nat) = k
    · simp [c1swctx, lookupKey, hk] at h
      subst h
      simp [c1swfont] at hr
      subst hr
      intro hmask
      rfl
    · simp [c1swctx, lookupKey, hk] at h

/-- Witness for C1 at concrete inputs in both backends. -/
theorem C1_successful_raster_dims_witness :
    (0 < c1out.width ∧ 0 < c1out.height ∧
      (c1out.bytes.length : Int) = 4 * c1out.width * c1out.height) ∧
    (0 < c1swout.width ∧ 0 < c1swout.height ∧
      (c1swout.bytes.length : Int) = 4 * c1swout.width * c1swout.height) :=
  ⟨C1_successful_raster_dims.1 c1env c1ctx c1inst c1key c1out c1ctx_wf rfl,
   C1_successful_raster_dims.2 c1swctx c1inst c1key c1swout c1swctx1 c1swctx_wf rfl⟩

/-- C2 counterexample: in the swash backend an unknown `font_key` makes
`rasterize_glyph` PANIC (the `.unwrap()` in `get_or_create_cache`) instead
of failing with `Err(LoadFailed)` — here on the empty context, refuting
the claim for "either backend". -/
theorem C2_unknown_font_counterexample :
    swash.FontContext.rasterize_glyph ⟨[], []⟩ c1inst c1key =
      Except.error RustPanic.panicked := rfl

/-- C2 amended: an unknown `font_key` makes the fontdue backend fail with
`Err(LoadFailed)`, while the swash backend panics whenever the glyph-image
cache has no entry for the requested `(instance, glyph key)`. -/
theorem C2_unknown_font_amended :
    (∀ (env : fontdue.TtfEnv) (ctx : fontdue.FontContext) (font : FontInstance)
      (key : GlyphKey), lookupKey ctx.fonts font.font_key = none →
      fontdue.FontContext.rasterize_glyph env ctx font key =
        Except.ok (Except.error GlyphRasterError.LoadFailed)) ∧
    (∀ (ctx : swash.FontContext) (inst : FontInstance) (gk : GlyphKey),
      lookupKey ctx.cache (inst, gk) = none →
      lookupKey ctx.fonts inst.font_key = none →
      ctx.rasterize_glyph inst gk = Except.error RustPanic.panicked) := by
  constructor
  · intro env ctx font key h
    unfold fontdue.FontContext.rasterize_glyph
    rw [h]
  · intro ctx inst gk hc hf
    unfold swash.FontContext.rasterize_glyph swash.FontContext.get_or_create_cache
    rw [hc, hf]

/-- Witness for C2 at concrete inputs in both backends. -/
theorem C2_unknown_font_witness :
    fontdue.FontContext.rasterize_glyph c1env ⟨[]⟩ c1inst c1key =
      Except.ok (Except.error GlyphRasterError.LoadFailed) ∧
    swash.FontContext.rasterize_glyph ⟨[], []⟩ c1inst c1key =
      Except.error RustPanic.panicked :=
  ⟨C2_unknown_font_amended.1 c1env ⟨[]⟩ c1inst c1key rfl,
   C2_unknown_font_amended.2 ⟨[], []⟩ c1inst c1key rfl rfl⟩

/-- C3: the embedded-image fallback of the fontdue backend is dead code.
The guard in `glyph_using_svg_or_raster` is `is_ok` where `is_err` was
meant: when the face parses the function returns `None` without consulting
the SVG or raster tables, so `rasterize_glyph` answers `LoadFailed` for a
zero-extent glyph even when the intended lookup (`svg_or_raster_body`)
would produce an image; and when the face does not parse, `face.unwrap()`
panics. -/
theorem C3_svg_fallback_dead :
    (∀ (env : fontdue.TtfEnv) (tmpl : fontdue.RawTemplate) (gid size : Nat)
      (face : fontdue.TtfFace), env.parse tmpl.1 tmpl.2 = some face →
      fontdue.glyph_using_svg_or_raster env tmpl gid size = Except.ok none) ∧
    (∀ (env : fontdue.TtfEnv) (tmpl : fontdue.RawTemplate) (gid size : Nat),
      env.parse tmpl.1 tmpl.2 = none →
      fontdue.glyph_using_svg_or_raster env tmpl gid size =
        Except.error RustPanic.panicked) ∧
    (∀ (env : fontdue.TtfEnv) (ctx : fontdue.FontContext) (font : FontInstance)
      (key : GlyphKey) (cached : fontdue.CachedFont) (face : fontdue.TtfFace)
      (p : fontdue.Pixmap × Int × Int),
      lookupKey ctx.fonts font.font_key = some cached →
      (fontdue.rasterizePrimary cached font key).1.width = 0 →
      env.parse cached.data.1 cached.data.2 = some face →
      fontdue.svg_or_raster_body env face key.index font.size = some p →
      fontdue.FontContext.rasterize_glyph env ctx font key =
        Except.ok (Except.error GlyphRasterError.LoadFailed)) := by
  refine ⟨?_, ?_, ?_⟩
  · intro env tmpl gid size face h
    unfold fontdue.glyph_using_svg_or_raster
    rw [h]
  · intro env tmpl gid size h
    unfold fontdue.glyph_using_svg_or_raster
    rw [h]
  · intro env ctx font key cached face p hl hz hparse hbody
    simp only [fontdue.FontContext.rasterize_glyph, hl]
    rw [if_pos (Or.inl hz)]
    unfold fontdue.fallbackGlyph fontdue.glyph_using_svg_or_raster
    rw [hparse]

/-- Witness for C3: a face whose SVG table yields a renderable image, a
font whose outline rasterization has zero extent — the fallback body finds
the image, yet `rasterize_glyph` answers `LoadFailed`. -/
def c3face : fontdue.TtfFace :=
  ⟨fun _ => some [1], fun _ _ => none⟩

def c3pix : fontdue.Pixmap := ⟨2, 2, List.replicate 16 0⟩

def c3env : fontdue.TtfEnv :=
  ⟨fun _ _ => some c3face, fun _ => some ⟨2, 2⟩, fun w h => some ⟨w, h, List.replicate 16 0⟩,
   fun _ pm => some pm, fun _ => none⟩

def c3font : fontdue.FontdueFont :=
  { lookup_glyph_index := fun _ => 7,
    metrics_indexed := fun _ _ => ⟨0, 0, 0, 0, 0⟩,
    rasterize_indexed := fun _ _ => (⟨0, 0, 0, 0, 0⟩, []),
    rasterize_indexed_subpixel := fun _ _ => (⟨0, 0, 0, 0, 0⟩, []) }

def c3ctx : fontdue.FontContext := ⟨[(1, ⟨1, ([], 0), c3font⟩)]⟩

theorem C3_svg_fallback_dead_witness :
    fontdue.glyph_using_svg_or_raster c3env ([], 0) 7 16 = Except.ok none ∧
    fontdue.FontContext.rasterize_glyph c3env c3ctx c1inst c1key =
      Except.ok (Except.error GlyphRasterError.LoadFailed) :=
  ⟨C3_svg_fallback_dead.1 c3env ([], 0) 7 16 c3face rfl,
   C3_svg_fallback_dead.2.2 c3env c3ctx c1inst c1key ⟨1, ([], 0), c3font⟩ c3face
     (c3pix, 0, 0) rfl rfl rfl rfl⟩

/-- C9: when the global font store lock is held, `add_raw_font` neither
blocks nor errors: `FontCache::cache_mut` observes the failed `try_lock`,
logs, and returns `None`, so the call returns normally with the world —
store and every context map — unchanged. -/
theorem C9_add_raw_font_lock_contention :
    ∀ (env : fontdue.FdEnv) (w : fontdue.FdWorld) (i : Nat) (k : FontKey)
      (bytes : List Nat) (index : Nat), w.lockHeld = true →
      fontdue.addRawFont env w i k bytes index = Except.ok w := by
  intro env w i k bytes index h
  unfold fontdue.addRawFont fontdue.cacheWithFont
  rw [h]
  simp

/-- Witness for C9 on a concrete contended world. -/
theorem C9_add_raw_font_lock_contention_witness :
    fontdue.addRawFont ⟨fun _ _ => true⟩ ⟨true, [], [], 0, [[]]⟩ 0 1 [2, 3] 0 =
      Except.ok ⟨true, [], [], 0, [[]]⟩ :=
  C9_add_raw_font_lock_contention ⟨fun _ _ => true⟩ ⟨true, [], [], 0, [[]]⟩ 0 1 [2, 3] 0 rfl

/-- A swash font whose charmap sends every character to the notdef
sentinel 0. -/
def c4font : swash.Font := ⟨fun _ => 0, fun _ _ => 0, fun _ _ => none⟩

def c4ctx : swash.FontContext := ⟨[(1, c4font)], []⟩

/-- C4 counterexample: in the swash backend a character that maps to the
notdef sentinel (glyph index 0) is returned as `Some(0)`, not `None` —
the backend performs no zero check. -/
theorem C4_notdef_counterexample :
    swash.FontContext.get_glyph_index c4ctx 1 65 = some 0 ∧
    swash.FontContext.get_glyph_index c4ctx 1 65 ≠ none := ⟨rfl, by decide⟩

/-- C4 amended: `get_glyph_index` returns `None` for an unknown font in
both backends; for a known font the fontdue backend maps the notdef
sentinel 0 to `None` and returns the (stable, call-independent) index
otherwise, while the swash backend returns the raw charmap value as
`Some` — including `Some 0` for notdef. -/
theorem C4_glyph_index_amended :
    (∀ (ctx : fontdue.FontContext) (k : FontKey) (ch : Nat),
      lookupKey ctx.fonts k = none →
      fontdue.FontContext.get_glyph_index ctx k ch = none) ∧
    (∀ (ctx : fontdue.FontContext) (k : FontKey) (ch : Nat)
      (cached : fontdue.CachedFont), lookupKey ctx.fonts k = some cached →
      cached.font.lookup_glyph_index ch = 0 →
      fontdue.FontContext.get_glyph_index ctx k ch = none) ∧
    (∀ (ctx : fontdue.FontContext) (k : FontKey) (ch : Nat)
      (cached : fontdue.CachedFont), lookupKey ctx.fonts k = some cached →
      cached.font.lookup_glyph_index ch ≠ 0 →
      fontdue.FontContext.get_glyph_index ctx k ch =
        some (cached.font.lookup_glyph_index ch)) ∧
    (∀ (ctx : swash.FontContext) (k : FontKey) (ch : Nat),
      lookupKey ctx.fonts k = none →
      swash.FontContext.get_glyph_index ctx k ch = none) ∧
    (∀ (ctx : swash.FontContext) (k : FontKey) (ch : Nat) (f : swash.Font),
      lookupKey ctx.fonts k = some f →
      swash.FontContext.get_glyph_index ctx k ch = some (f.charmap_map ch)) := by
  refine ⟨?_, ?_, ?_, ?_, ?_⟩
  · intro ctx k ch h
    simp only [fontdue.FontContext.get_glyph_index, h]
  · intro ctx k ch cached h h0
    simp only [fontdue.FontContext.get_glyph_index, h, h0, if_true]
  · intro ctx k ch cached h h0
    simp only [fontdue.FontContext.get_glyph_index, h, if_neg h0]
  · intro ctx k ch h
    simp only [swash.FontContext.get_glyph_index, h]
  · intro ctx k ch f h
    simp only [swash.FontContext.get_glyph_index, h]

/-- A fontdue font whose charmap sends every character to the notdef
sentinel 0. -/
def c4fdfont : fontdue.FontdueFont :=
  { lookup_glyph_index := fun _ => 0,
    metrics_indexed := fun _ _ => ⟨0, 0, 0, 0, 0⟩,
    rasterize_indexed := fun _ _ => (⟨0, 0, 0, 0, 0⟩, []),
    rasterize_indexed_subpixel := fun _ _ => (⟨0, 0, 0, 0, 0⟩, []) }

def c4fdctx : fontdue.FontContext := ⟨[(1, ⟨1, ([], 0), c4fdfont⟩)]⟩

/-- Witness for C4 at concrete inputs in both backends. -/
theorem C4_glyph_index_witness :
    fontdue.FontContext.get_glyph_index ⟨[]⟩ 1 65 = none ∧
    fontdue.FontContext.get_glyph_index c4fdctx 1 65 = none ∧
    fontdue.FontContext.get_glyph_index c1ctx 1 65 = some 1 ∧
    swash.FontContext.get_glyph_index ⟨[], []⟩ 1 65 = none ∧
    swash.FontContext.get_glyph_index c4ctx 1 65 = some 0 :=
  ⟨C4_glyph_index_amended.1 ⟨[]⟩ 1 65 rfl,
   C4_glyph_index_amended.2.1 c4fdctx 1 65 ⟨1, ([], 0), c4fdfont⟩ rfl rfl,
   C4_glyph_index_amended.2.2.1 c1ctx 1 65 c1cached rfl (by decide),
   C4_glyph_index_amended.2.2.2.1 ⟨[], []⟩ 1 65 rfl,
   C4_glyph_index_amended.2.2.2.2 c4ctx 1 65 c4font rfl⟩

/-- A swash font that renders a zero-extent image (as happens for
spaces). -/
def c5img : swash.GlyphImage := ⟨0, 0, 0, 0, [], swash.Content.Mask⟩

def c5font : swash.Font := ⟨fun _ => 0, fun _ _ => 7, fun _ _ => some c5img⟩

def c5ctx : swash.FontContext := ⟨[(1, c5font)], []⟩

def c5inst : FontInstance :=
  ⟨1, 0, 0, FontRenderMode.Alpha, ⟨false, false⟩, ⟨255, 255, 255, 255⟩⟩

def c5key : GlyphKey := ⟨0, 0⟩

def c5ctx1 : swash.FontContext := ⟨[(1, c5font)], insertKey [] (c5inst, c5key) c5img⟩

/-- C5 counterexample: the swash backend returns a zero-sized
`Some(GlyphDimensions)` for a glyph whose rendered extent is zero (size-0
instance, glyph index 0) — it performs no degeneracy check. -/
theorem C5_zero_dims_counterexample :
    swash.FontContext.get_glyph_dimensions c5ctx c5inst c5key =
      Except.ok (some ⟨0, 0, 0, 0, 7⟩, c5ctx1) ∧
    (⟨0, 0, 0, 0, 7⟩ : GlyphDimensions).width = 0 := ⟨rfl, rfl⟩

/-- C5 amended: the fontdue backend returns `None` for an unknown font
and never returns a zero-sized `Some`; the swash backend hands back the
image extent verbatim — zero included (and, per C2, panics rather than
returning `None` for an unknown font on a cache miss). -/
theorem C5_dims_amended :
    (∀ (ctx : fontdue.FontContext) (font : FontInstance) (key : GlyphKey),
      lookupKey ctx.fonts font.font_key = none →
      fontdue.FontContext.get_glyph_dimensions ctx font key = none) ∧
    (∀ (ctx : fontdue.FontContext) (font : FontInstance) (key : GlyphKey)
      (d : GlyphDimensions),
      fontdue.FontContext.get_glyph_dimensions ctx font key = some d →
      0 < d.width ∧ 0 < d.height) ∧
    (∀ (ctx : swash.FontContext) (inst : FontInstance) (key : GlyphKey)
      (img : swash.GlyphImage) (ctx1 : swash.FontContext) (f : swash.Font),
      ctx.get_or_create_cache inst key = Except.ok (some img, ctx1) →
      lookupKey ctx.fonts inst.font_key = some f →
      ctx.get_glyph_dimensions inst key =
        Except.ok (some ⟨img.left, img.top, (img.width : Int), (img.height : Int),
          f.advance_width inst.size key.index⟩, ctx1)) := by
  refine ⟨?_, ?_, ?_⟩
  · intro ctx font key h
    simp only [fontdue.FontContext.get_glyph_dimensions, h]
  · intro ctx font key d h
    unfold fontdue.FontContext.get_glyph_dimensions at h
    split at h
    · simp at h
    next cached hl =>
      split at h
      · simp at h
      next hz =>
        push_neg at hz
        simp at h
        obtain ⟨hw, hh⟩ := hz
        constructor
        · rw [← h]; dsimp only; exact_mod_cast Nat.pos_of_ne_zero hw
        · rw [← h]; dsimp only; exact_mod_cast Nat.pos_of_ne_zero hh
  · intro ctx inst key img ctx1 f hg hf
    have hfonts := (swash.get_or_create_cache_some ctx inst key img ctx1 hg).2
    simp only [swash.FontContext.get_glyph_dimensions, hg]
    rw [hfonts, hf]

/-- Witness for C5 at concrete inputs in both backends. -/
theorem C5_dims_witness :
    fontdue.FontContext.get_glyph_dimensions ⟨[]⟩ c1inst c1key = none ∧
    (0 < (⟨0, 0, 1, 1, 6⟩ : GlyphDimensions).width ∧
      0 < (⟨0, 0, 1, 1, 6⟩ : GlyphDimensions).height) ∧
    swash.FontContext.get_glyph_dimensions c5ctx c5inst c5key =
      Except.ok (some ⟨0, 0, 0, 0, 7⟩, c5ctx1) :=
  ⟨C5_dims_amended.1 ⟨[]⟩ c1inst c1key rfl,
   C5_dims_amended.2.1 c1ctx c1inst c1key ⟨0, 0, 1, 1, 6⟩ rfl,
   C5_dims_amended.2.2 c5ctx c5inst c5key c5img c5ctx1 c5font rfl rfl⟩

/-- C10: the swash `rasterize_glyph` is not atomic on error.  When the
renderer produces a zero-extent image, `get_or_create_cache` has already
inserted that image into the glyph-image cache before the zero check fails
the call with `LoadFailed`, and a subsequent `get_glyph_dimensions` for
the same key serves the cached zero-extent entry. -/
theorem C10_zero_extent_cached :
    ∀ (ctx : swash.FontContext) (inst : FontInstance) (gk : GlyphKey)
      (f : swash.Font) (img : swash.GlyphImage),
      lookupKey ctx.cache (inst, gk) = none →
      lookupKey ctx.fonts inst.font_key = some f →
      f.render_glyph inst gk = some img →
      img.width = 0 ∨ img.height = 0 →
      ctx.rasterize_glyph inst gk =
        Except.ok (Except.error GlyphRasterError.LoadFailed,
          { ctx with cache := insertKey ctx.cache (inst, gk) img }) ∧
      lookupKey ({ ctx with
          cache := insertKey ctx.cache (inst, gk) img } : swash.FontContext).cache
        (inst, gk) = some img ∧
      ({ ctx with cache := insertKey ctx.cache (inst, gk) img } :
          swash.FontContext).get_glyph_dimensions inst gk =
        Except.ok (some ⟨img.left, img.top, (img.width : Int), (img.height : Int),
          f.advance_width inst.size gk.index⟩,
          { ctx with cache := insertKey ctx.cache (inst, gk) img }) := by
  intro ctx inst gk f img hc hf hr hz
  have hgocc : ctx.get_or_create_cache inst gk =
      Except.ok (some img, { ctx with cache := insertKey ctx.cache (inst, gk) img }) := by
    simp only [swash.FontContext.get_or_create_cache, hc, hf, hr]
  have hcache := lookupKey_insertKey ctx.cache (inst, gk) img
  refine ⟨?_, hcache, ?_⟩
  · simp only [swash.FontContext.rasterize_glyph, hgocc]
    have hri : swash.rasterizeImage inst img =
        Except.ok (Except.error GlyphRasterError.LoadFailed) := by
      unfold swash.rasterizeImage
      rw [if_pos hz]
    rw [hri]
  · simp only [swash.FontContext.get_glyph_dimensions]
    have hg2 : ({ ctx with cache := insertKey ctx.cache (inst, gk) img } :
        swash.FontContext).get_or_create_cache inst gk =
        Except.ok (some img, { ctx with cache := insertKey ctx.cache (inst, gk) img }) := by
      simp only [swash.FontContext.get_or_create_cache, hcache]
    simp only [hg2, hf]

/-- Setting the BGR flag swaps the first and third output channel of every
pixel of the fontdue subpixel conversion and changes nothing else. -/
theorem fdConvertSubpixel_swap :
    ∀ (l out : List Nat), fontdue.fdConvertSubpixel false l = Except.ok out →
      fontdue.fdConvertSubpixel true l = Except.ok (swap13 out)
  | [], out => by
    intro h
    simp [fontdue.fdConvertSubpixel] at h
    subst h
    simp [fontdue.fdConvertSubpixel, swap13]
  | [r], out => by intro h; simp [fontdue.fdConvertSubpixel] at h
  | [r, g], out => by intro h; simp [fontdue.fdConvertSubpixel] at h
  | r :: g :: b :: rest, out => by
    intro h
    simp only [fontdue.fdConvertSubpixel] at h ⊢
    cases hrec : fontdue.fdConvertSubpixel false rest with
    | error p => rw [hrec] at h; simp [Except.map] at h
    | ok t =>
      rw [hrec] at h
      simp [Except.map] at h
      rw [fdConvertSubpixel_swap rest t hrec]
      simp [Except.map, ← h, swap13]
      omega

/-- The fourth channel of every pixel emitted by the fontdue subpixel
conversion is the maximum of its three coverage channels. -/
theorem fdConvertSubpixel_alphaIsMax (bgr : Bool) :
    ∀ (l out : List Nat), fontdue.fdConvertSubpixel bgr l = Except.ok out →
      alphaIsMax out = true
  | [], out => by
    intro h
    simp [fontdue.fdConvertSubpixel] at h
    subst h
    rfl
  | [r], out => by intro h; simp [fontdue.fdConvertSubpixel] at h
  | [r, g], out => by intro h; simp [fontdue.fdConvertSubpixel] at h
  | r :: g :: b :: rest, out => by
    intro h
    simp only [fontdue.fdConvertSubpixel] at h
    cases hrec : fontdue.fdConvertSubpixel bgr rest with
    | error p => rw [hrec] at h; simp [Except.map] at h
    | ok t =>
      rw [hrec] at h
      simp [Except.map] at h
      have ih := fdConvertSubpixel_alphaIsMax bgr rest t hrec
      simp [← h, alphaIsMax, ih]

/-- Setting the BGR flag swaps the first and third output channel of every
pixel of the swash color / subpixel conversion and changes nothing else. -/
theorem swConvertColor_swap :
    ∀ l : List Nat, swash.swConvertColor true l = swap13 (swash.swConvertColor false l)
  | [] => by simp [swash.swConvertColor, swap13]
  | [r] => by simp [swash.swConvertColor, swap13]
  | [r, g] => by simp [swash.swConvertColor, swap13]
  | [r, g, b] => by simp [swash.swConvertColor, swap13]
  | r :: g :: b :: a :: rest => by
    have ih := swConvertColor_swap rest
    simp [swash.swConvertColor, swap13, ih]

/-- The fourth channel of every pixel emitted by the swash color /
subpixel conversion is copied from the source pixel's fourth (alpha)
channel — it is NOT recomputed as a coverage maximum. -/
theorem swConvertColor_alphaChannels (bgr : Bool) :
    ∀ l : List Nat, alphaChannels (swash.swConvertColor bgr l) = alphaChannels l
  | [] => by simp [swash.swConvertColor, alphaChannels]
  | [r] => by simp [swash.swConvertColor, alphaChannels]
  | [r, g] => by simp [swash.swConvertColor, alphaChannels]
  | [r, g, b] => by simp [swash.swConvertColor, alphaChannels]
  | r :: g :: b :: a :: rest => by
    have ih := swConvertColor_alphaChannels bgr rest
    simp [swash.swConvertColor, alphaChannels, ih]

namespace fontdue

/-- Reduction of `rasterize_glyph` under a known font lookup. -/
theorem rasterize_glyph_some (env : TtfEnv) (ctx : FontContext)
    (font : FontInstance) (key : GlyphKey) (cached : CachedFont)
    (hl : lookupKey ctx.fonts font.font_key = some cached) :
    FontContext.rasterize_glyph env ctx font key =
      if (rasterizePrimary cached font key).1.width = 0 ∨
          (rasterizePrimary cached font key).1.height = 0 then
        fallbackGlyph env cached key.index font.size
      else
        primaryGlyph font (rasterizePrimary cached font key).1
          (rasterizePrimary cached font key).2 := by
  unfold FontContext.rasterize_glyph
  rw [hl]

/-- In subpixel mode, every successful fontdue rasterization has its
fourth channel equal to the maximum of the three coverage channels in
every pixel. -/
theorem rasterize_subpixel_alpha (env : TtfEnv) (ctx : FontContext)
    (font : FontInstance) (key : GlyphKey) (g : RasterizedGlyph)
    (hm : font.render_mode = FontRenderMode.Subpixel)
    (h : FontContext.rasterize_glyph env ctx font key = Except.ok (Except.ok g)) :
    alphaIsMax g.bytes = true := by
  unfold FontContext.rasterize_glyph at h
  split at h
  · simp at h
  next cached hl =>
    split at h
    next hz =>
      have hcontra := fallbackGlyph_ok env cached key.index font.size (Except.ok g) h
      simp at hcontra
    next hz =>
      obtain ⟨_, _, _, _, _, hcase⟩ := primaryGlyph_ok font _ _ g h
      rcases hcase with ⟨_, hconv, _⟩ | ⟨hm2, _, _⟩
      · exact fdConvertSubpixel_alphaIsMax font.flags.subpixel_bgr _ _ hconv
      · exact absurd hm hm2

/-- In subpixel mode, flipping the `SUBPIXEL_BGR` flag on a successful
fontdue rasterization swaps the first and third channel of every output
pixel and changes nothing else. -/
theorem rasterize_subpixel_swap (env : TtfEnv) (ctx : FontContext)
    (font : FontInstance) (key : GlyphKey) (g : RasterizedGlyph)
    (hm : font.render_mode = FontRenderMode.Subpixel)
    (hf : font.flags.subpixel_bgr = false)
    (h : FontContext.rasterize_glyph env ctx font key = Except.ok (Except.ok g)) :
    FontContext.rasterize_glyph env ctx
      { font with flags := { font.flags with subpixel_bgr := true } } key =
      Except.ok (Except.ok { g with bytes := swap13 g.bytes }) := by
  unfold FontContext.rasterize_glyph at h
  split at h
  · simp at h
  next cached hl =>
    have hl2 : lookupKey ctx.fonts
        ({ font with flags := { font.flags with subpixel_bgr := true } } :
          FontInstance).font_key = some cached := hl
    have hpr : rasterizePrimary cached
        { font with flags := { font.flags with subpixel_bgr := true } } key =
        rasterizePrimary cached font key := rfl
    rw [rasterize_glyph_some env ctx _ key cached hl2, hpr]
    split at h
    next hz =>
      have hcontra := fallbackGlyph_ok env cached key.index font.size (Except.ok g) h
      simp at hcontra
    next hz =>
      rw [if_neg hz]
      unfold primaryGlyph at h ⊢
      rw [if_pos hm] at h
      rw [if_pos (show ({ font with flags := { font.flags with subpixel_bgr := true } } :
        FontInstance).render_mode = FontRenderMode.Subpixel from hm)]
      rw [hf] at h
      cases hc : fdConvertSubpixel false (rasterizePrimary cached font key).2 with
      | error p => rw [hc] at h; simp [Except.map] at h
      | ok bytes =>
        rw [hc] at h
        simp [Except.map] at h
        have hswap := fdConvertSubpixel_swap _ _ hc
        rw [show ({ font with flags := { font.flags with subpixel_bgr := true } } :
          FontInstance).flags.subpixel_bgr = true from rfl, hswap]
        simp [Except.map, ← h]

end fontdue

/-- Witness for C10 at the concrete zero-extent font. -/
theorem C10_zero_extent_cached_witness :
    swash.FontContext.rasterize_glyph c5ctx c5inst c5key =
      Except.ok (Except.error GlyphRasterError.LoadFailed, c5ctx1) ∧
    lookupKey c5ctx1.cache (c5inst, c5key) = some c5img ∧
    swash.FontContext.get_glyph_dimensions c5ctx1 c5inst c5key =
      Except.ok (some ⟨0, 0, 0, 0, 7⟩, c5ctx1) :=
  C10_zero_extent_cached c5ctx c5inst c5key c5font c5img rfl rfl rfl (Or.inl rfl)

/-- A swash font rendering a 1 x 1 subpixel-mask image whose source alpha
(0) differs from the maximum of its coverage triple (30). -/
def c6img : swash.GlyphImage := ⟨0, 0, 1, 1, [10, 20, 30, 0], swash.Content.SubpixelMask⟩

def c6font : swash.Font := ⟨fun _ => 1, fun _ _ => 0, fun _ _ => some c6img⟩

def c6ctx : swash.FontContext := ⟨[(2, c6font)], []⟩

def c6inst : FontInstance :=
  ⟨2, 5, 16, FontRenderMode.Subpixel, ⟨false, false⟩, ⟨255, 255, 255, 255⟩⟩

def c6key : GlyphKey := ⟨3, 0⟩

def c6glyph : RasterizedGlyph := ⟨0, 0, 1, 1, 1, GlyphFormat.Subpixel, [30, 20, 10, 0]⟩

def c6ctx1 : swash.FontContext := ⟨[(2, c6font)], insertKey [] (c6inst, c6key) c6img⟩

/-- C6 counterexample: a successful subpixel rasterization in the swash
backend whose fourth (alpha) channel is the source image's alpha (0), not
the maximum of the three coverage values (30). -/
theorem C6_subpixel_alpha_counterexample :
    swash.FontContext.rasterize_glyph c6ctx c6inst c6key =
      Except.ok (Except.ok c6glyph, c6ctx1) ∧
    c6glyph.bytes.getD 3 0 ≠
      max (max (c6glyph.bytes.getD 0 0) (c6glyph.bytes.getD 1 0))
        (c6glyph.bytes.getD 2 0) := ⟨rfl, by decide⟩

/-- C6 amended: in both backends the first and third output channels are
swapped exactly when `SUBPIXEL_BGR` is set; the fourth channel is the
maximum of the three coverage values in the fontdue backend, but in the
swash backend it is copied from the source image's alpha channel. -/
theorem C6_subpixel_channels :
    (∀ (l out : List Nat), fontdue.fdConvertSubpixel false l = Except.ok out →
      fontdue.fdConvertSubpixel true l = Except.ok (swap13 out)) ∧
    (∀ (bgr : Bool) (l out : List Nat),
      fontdue.fdConvertSubpixel bgr l = Except.ok out → alphaIsMax out = true) ∧
    (∀ (env : fontdue.TtfEnv) (ctx : fontdue.FontContext) (font : FontInstance)
      (key : GlyphKey) (g : RasterizedGlyph),
      font.render_mode = FontRenderMode.Subpixel →
      font.flags.subpixel_bgr = false →
      fontdue.FontContext.rasterize_glyph env ctx font key =
        Except.ok (Except.ok g) →
      fontdue.FontContext.rasterize_glyph env ctx
        { font with flags := { font.flags with subpixel_bgr := true } } key =
        Except.ok (Except.ok { g with bytes := swap13 g.bytes })) ∧
    (∀ (env : fontdue.TtfEnv) (ctx : fontdue.FontContext) (font : FontInstance)
      (key : GlyphKey) (g : RasterizedGlyph),
      font.render_mode = FontRenderMode.Subpixel →
      fontdue.FontContext.rasterize_glyph env ctx font key =
        Except.ok (Except.ok g) →
      alphaIsMax g.bytes = true) ∧
    (∀ l : List Nat,
      swash.swConvertColor true l = swap13 (swash.swConvertColor false l)) ∧
    (∀ (bgr : Bool) (l : List Nat),
      alphaChannels (swash.swConvertColor bgr l) = alphaChannels l) :=
  ⟨fdConvertSubpixel_swap,
   fdConvertSubpixel_alphaIsMax,
   fun env ctx font key g hm hf h =>
     fontdue.rasterize_subpixel_swap env ctx font key g hm hf h,
   fun env ctx font key g hm h =>
     fontdue.rasterize_subpixel_alpha env ctx font key g hm h,
   swConvertColor_swap,
   swConvertColor_alphaChannels⟩

def c6fdinst : FontInstance :=
  ⟨1, 0, 16, FontRenderMode.Subpixel, ⟨false, false⟩, ⟨255, 255, 255, 255⟩⟩

def c6fdout : RasterizedGlyph := ⟨0, 1, 1, 1, 1, GlyphFormat.Subpixel, [7, 6, 5, 7]⟩

/-- Witness for C6 at concrete pixel buffers and a concrete fontdue
subpixel rasterization. -/
theorem C6_subpixel_channels_witness :
    fontdue.fdConvertSubpixel true [1, 2, 3] = Except.ok (swap13 [3, 2, 1, 3]) ∧
    alphaIsMax [3, 2, 1, 3] = true ∧
    fontdue.FontContext.rasterize_glyph c1env c1ctx
      { c6fdinst with flags := { c6fdinst.flags with subpixel_bgr := true } } c1key =
      Except.ok (Except.ok { c6fdout with bytes := swap13 c6fdout.bytes }) ∧
    alphaIsMax c6fdout.bytes = true ∧
    swash.swConvertColor true [1, 2, 3, 4] =
      swap13 (swash.swConvertColor false [1, 2, 3, 4]) ∧
    alphaChannels (swash.swConvertColor false [1, 2, 3, 4]) =
      alphaChannels [1, 2, 3, 4] :=
  ⟨C6_subpixel_channels.1 [1, 2, 3] [3, 2, 1, 3] rfl,
   C6_subpixel_channels.2.1 false [1, 2, 3] [3, 2, 1, 3] rfl,
   C6_subpixel_channels.2.2.1 c1env c1ctx c6fdinst c1key c6fdout rfl rfl rfl,
   C6_subpixel_channels.2.2.2.1 c1env c1ctx c6fdinst c1key c6fdout rfl rfl,
   C6_subpixel_channels.2.2.2.2.1 [1, 2, 3, 4],
   C6_subpixel_channels.2.2.2.2.2 false [1, 2, 3, 4]⟩

/-- C7: `rasterize_glyph` is idempotent.  The fontdue backend call never
mutates its context (the translation is a pure function of it), so two
successive calls are literally the same computation; in the swash backend
the first call's cache insertion is absorbed: re-running from the produced
context returns the same result and the same context, byte for byte. -/
theorem C7_rasterize_idempotent :
    (∀ (env : fontdue.TtfEnv) (ctx : fontdue.FontContext) (font : FontInstance)
      (key : GlyphKey),
      fontdue.FontContext.rasterize_glyph env ctx font key =
        fontdue.FontContext.rasterize_glyph env ctx font key) ∧
    (∀ (ctx : swash.FontContext) (inst : FontInstance) (gk : GlyphKey)
      (r : GlyphRasterResult) (ctx1 : swash.FontContext),
      ctx.rasterize_glyph inst gk = Except.ok (r, ctx1) →
      ctx1.rasterize_glyph inst gk = Except.ok (r, ctx1)) := by
  constructor
  · intro env ctx font key
    rfl
  · intro ctx inst gk r ctx1 h
    unfold swash.FontContext.rasterize_glyph at h ⊢
    split at h
    · simp at h
    next c1 hg =>
      simp at h
      obtain ⟨hr, hc⟩ := h
      subst hr
      subst hc
      simp only [swash.get_or_create_cache_idem ctx inst gk none c1 hg]
    next img c1 hg =>
      split at h
      · simp at h
      next r2 hri =>
        simp at h
        obtain ⟨hr, hc⟩ := h
        subst hr
        subst hc
        simp only [swash.get_or_create_cache_idem ctx inst gk (some img) c1 hg, hri]

/-- Witness for C7: a concrete second call is byte-identical to the
first. -/
theorem C7_rasterize_idempotent_witness :
    fontdue.FontContext.rasterize_glyph c1env c1ctx c1inst c1key =
      fontdue.FontContext.rasterize_glyph c1env c1ctx c1inst c1key ∧
    swash.FontContext.rasterize_glyph c1swctx1 c1inst c1key =
      Except.ok (Except.ok c1swout, c1swctx1) :=
  ⟨C7_rasterize_idempotent.1 c1env c1ctx c1inst c1key,
   C7_rasterize_idempotent.2 c1swctx c1inst c1key (Except.ok c1swout) c1swctx1 rfl⟩

/-! ### List lemmas for the reference-count argument -/

theorem getD_set_of_ne {α : Type _} :
    ∀ (l : List α) (i j : Nat) (x d : α), i ≠ j →
      (l.set i x).getD j d = l.getD j d
  | [], i, j, x, d, _ => by simp
  | a :: rest, 0, 0, x, d, h => absurd rfl h
  | a :: rest, 0, j + 1, x, d, _ => by
    simp [List.set_cons_zero, List.getD_cons_succ]
  | a :: rest, i + 1, 0, x, d, _ => by
    simp [List.set_cons_succ, List.getD_cons_zero]
  | a :: rest, i + 1, j + 1, x, d, h => by
    simp only [List.set_cons_succ, List.getD_cons_succ]
    exact getD_set_of_ne rest i j x d (fun hh => h (by rw [hh]))

theorem countRefs_getD_le_sum (l : List (List (FontKey × fontdue.FontId)))
    (fid : fontdue.FontId) :
    ∀ j, j < l.length →
      fontdue.countRefs (l.getD j []) fid ≤
        (l.map (fun c => fontdue.countRefs c fid)).sum := by
  induction l with
  | nil => intro j hj; simp at hj
  | cons c rest ih =>
    intro j hj
    cases j with
    | zero =>
      simp only [List.getD_cons_zero, List.map_cons, List.sum_cons]
      omega
    | succ n =>
      simp only [List.getD_cons_succ, List.map_cons, List.sum_cons]
      have := ih n (by simpa using hj)
      omega

/-- C8: `delete_font` in the fontdue backend removes the store entry only
when no other Font Context still references the `CachedFont`.  The
`Arc::strong_count(&cached) <= 2` check counts the store's reference and
the local binding; any reference held by another context pushes the count
past 2 and leaves the store untouched, while a sole holder (store + the
releasing context) triggers the store removal. -/
theorem C8_delete_font_refcount :
    (∀ (w : fontdue.FdWorld) (i j : Nat) (k : FontKey) (fid : fontdue.FontId),
      lookupKey (w.contexts.getD i []) k = some fid →
      1 ≤ fontdue.countRefs w.store fid →
      j < w.contexts.length → j ≠ i →
      1 ≤ fontdue.countRefs (w.contexts.getD j []) fid →
      (fontdue.deleteFont w i k).store = w.store) ∧
    (∀ (w : fontdue.FdWorld) (i : Nat) (k : FontKey) (fid : fontdue.FontId),
      w.lockHeld = false →
      lookupKey (w.contexts.getD i []) k = some fid →
      lookupKey w.cachedHash fid = some k →
      fontdue.countRefs w.store fid = 1 →
      ((w.contexts.set i (removeKey (w.contexts.getD i []) k)).map
        (fun c => fontdue.countRefs c fid)).sum = 0 →
      (fontdue.deleteFont w i k).store = removeKey w.store k) := by
  constructor
  · intro w i j k fid hctx hstore hj hji hjr
    simp only [fontdue.deleteFont, hctx]
    split
    next hcond =>
      exfalso
      have hlen : j < (w.contexts.set i (removeKey (w.contexts.getD i []) k)).length := by
        rw [List.length_set]; exact hj
      have hgd : (w.contexts.set i (removeKey (w.contexts.getD i []) k)).getD j [] =
          w.contexts.getD j [] := getD_set_of_ne _ _ _ _ _ (Ne.symm hji)
      have hsum := countRefs_getD_le_sum
        (w.contexts.set i (removeKey (w.contexts.getD i []) k)) fid j hlen
      rw [hgd] at hsum
      unfold fontdue.strongOther at hcond
      dsimp only at hcond
      omega
    next hcond => rfl
  · intro w i k fid hlock hctx hhash hstore hothers
    simp only [fontdue.deleteFont, hctx]
    split
    next hcond =>
      have hch : ({ w with contexts := w.contexts.set i (removeKey (w.contexts.getD i []) k) } : fontdue.FdWorld).cachedHash = w.cachedHash := rfl
      have hlk : ({ w with contexts := w.contexts.set i (removeKey (w.contexts.getD i []) k) } : fontdue.FdWorld).lockHeld = false := hlock
      simp only [hch, hhash]
      simp [fontdue.cacheDeleteFont, hlk, hlock]
    next hcond =>
      exfalso
      unfold fontdue.strongOther at hcond
      dsimp only at hcond
      omega

/-- C8 witness world A: two contexts both hold the allocation `10` under
key `1`; deleting from context 0 leaves the store unchanged. -/
def c8wA : fontdue.FdWorld :=
  ⟨false, [(1, 10)], [(10, 1)], 11, [[(1, 10)], [(1, 10)]]⟩

/-- C8 witness world B: only context 0 and the store hold allocation `10`;
deleting from context 0 evicts the store entry. -/
def c8wB : fontdue.FdWorld :=
  ⟨false, [(1, 10)], [(10, 1)], 11, [[(1, 10)]]⟩

/-- Witness for C8 on the two concrete worlds. -/
theorem C8_delete_font_refcount_witness :
    (fontdue.deleteFont c8wA 0 1).store = c8wA.store ∧
    (fontdue.deleteFont c8wB 0 1).store = removeKey c8wB.store 1 :=
  ⟨C8_delete_font_refcount.1 c8wA 0 1 1 10 rfl (by decide) (by decide) (by decide)
      (by decide),
   C8_delete_font_refcount.2 c8wB 0 1 10 rfl rfl rfl (by decide) (by decide)⟩

end WrGlyph
